import Mathlib

/-!
Verification development for the relation-extraction fine-tuning launcher
(`main_train.py`): a shallow embedding of its loss dispatch, scheduler
selection, argument wiring, dataset split and early-stopping policy,
together with theorems settling the specification's claims about them.

Conventions: tensors of logits are `List (List ℚ)` (batch of rows),
integer label tensors are `List ℤ`, learning rates are `ℚ`.
-/

namespace MainTrain

/-! ## Loss dispatch (`CustomTrainer.compute_loss`) -/

/-- A Python runtime error surfaced by the embedded code. -/
inductive PyError where
  | unboundLocalError (var : String)
  deriving DecidableEq, Repr

/-- The value `compute_loss` hands back to the training loop.  Besides a
numeric loss tensor (`scalar`) it can be the object produced by calling the
class `nn.CrossEntropyLoss` itself — the source's `CE` branch assigns the
class, not an instance, so `loss_fct(logits, labels)` invokes the
constructor with `weight := logits` and `size_average := labels` and yields
a loss-module object rather than a loss tensor — or a raised error. -/
inductive ComputeLossResult where
  | scalar (q : ℚ)
  | ceModuleCtor (weight : List (List ℚ)) (sizeAverage : List ℤ)
  | raised (e : PyError)
  deriving DecidableEq, Repr

/-- Embedding of `CustomTrainer.compute_loss` (main_train.py lines 33-49).
The three loss instances `LabelSmoothingLoss()`, `FocalLoss()`, `F1Loss()`
are imported from `utilities.criterion.loss`, a module outside the given
sources, so they are taken as function parameters `lbLoss`, `focalLoss`,
`f1Loss`.  The `.view(-1, num_labels)` / `.view(-1)` reshapes are identities
in this list representation.  When `lossName` matches no branch, Python
raises `UnboundLocalError` at the call `loss_fct(...)` because `loss_fct`
was never assigned. -/
def computeLoss (lbLoss focalLoss f1Loss : List (List ℚ) → List ℤ → ℚ)
    (lossName : String) (logits : List (List ℚ)) (labels : List ℤ) :
    ComputeLossResult :=
  if lossName = "CE" then
    ComputeLossResult.ceModuleCtor logits labels
  else if lossName = "LB" then
    ComputeLossResult.scalar (lbLoss logits labels)
  else if lossName = "focal" then
    ComputeLossResult.scalar (focalLoss logits labels)
  else if lossName = "f1" then
    ComputeLossResult.scalar (f1Loss logits labels)
  else
    ComputeLossResult.raised (PyError.unboundLocalError "loss_fct")

/-- A batch of one example with 30 logits, essentially all of the predictive
mass on class 0 (the true class): the input on which cross-entropy ought to
be (approximately) 0. -/
def confidentLogits : List (List ℚ) := [(1000 : ℚ) :: List.replicate 29 0]

/-- The matching label tensor: the true class of the single example is 0. -/
def confidentLabels : List ℤ := [0]

/-! ## Scheduler selection (`CustomTrainer.create_scheduler`) -/

/-- A learning-rate schedule object as stored in `self.lr_scheduler`:
either a `transformers.get_scheduler` product (named schedule with warmup
and total step counts) or a `torch.optim.lr_scheduler.StepLR`. -/
inductive Schedule where
  | lambdaSched (kind : String) (numWarmupSteps numTrainingSteps : ℕ)
  | stepLR (stepSize : ℕ) (gamma : ℚ)
  deriving DecidableEq, Repr

/-- Modelled from the spec: `TrainingArguments.get_warmup_steps` of the
external training framework — the configured `warmup_steps` when positive,
otherwise the ceiling of `warmup_ratio` times the total step count. -/
def getWarmupSteps (warmupSteps : ℕ) (warmupRatio : ℚ) (numTrainingSteps : ℕ) : ℕ :=
  if 0 < warmupSteps then warmupSteps
  else Int.toNat ⌈warmupRatio * numTrainingSteps⌉

/-- The trainer fields `create_scheduler` reads: the configured scheduler
name (`self.scheduler`), the current `self.lr_scheduler` (initialised to
`None` by the base trainer, hence `none`), and the warmup configuration of
`self.args`. -/
structure TrainerSchedState where
  scheduler : String
  lrScheduler : Option Schedule
  warmupSteps : ℕ
  warmupRatio : ℚ
  deriving DecidableEq, Repr

/-- Embedding of `CustomTrainer.create_scheduler` (main_train.py lines
51-68), returning the value of `self.lr_scheduler` at the `return`
statement.  The source's `get_scheduler(...)` call is indented inside the
`elif self.scheduler == 'cosine':` branch, so the `'linear'` branch only
assigns the dead local `my_scheduler` and builds nothing; every name other
than the three known ones falls through all branches.  In both of those
cases the function returns the prior `self.lr_scheduler` unchanged. -/
def createScheduler (st : TrainerSchedState) (numTrainingSteps : ℕ) :
    Option Schedule :=
  if st.scheduler = "linear" ∨ st.scheduler = "cosine" then
    if st.scheduler = "linear" then
      st.lrScheduler
    else
      some (Schedule.lambdaSched "cosine_with_restarts"
        (getWarmupSteps st.warmupSteps st.warmupRatio numTrainingSteps)
        numTrainingSteps)
  else if st.scheduler = "steplr" then
    some (Schedule.stepLR 1080 (1 / 2))
  else
    st.lrScheduler

/-- Modelled from the spec: the rate produced by `torch.optim.lr_scheduler.StepLR`
(external library) — the base learning rate decayed by the factor `gamma`
once every `stepSize` completed optimization steps. -/
def stepLRRate (stepSize : ℕ) (gamma baseLr : ℚ) (step : ℕ) : ℚ :=
  baseLr * gamma ^ (step / stepSize)

/-- The `num_training_steps` value computed at trainer construction
(main_train.py line 138): `args.epochs * len(train_dataset) // args.batch`. -/
def trainerNumTrainingSteps (epochs datasetSize batch : ℕ) : ℕ :=
  epochs * datasetSize / batch

/-! ## CLI arguments and `TrainingArguments` wiring -/

/-- The argparse namespace of `main` (main_train.py lines 148-192), with the
fields the training wiring reads. -/
structure Args where
  seed : ℕ
  loss : String
  scheduler : String
  epochs : ℕ
  lr : ℚ
  batch : ℕ
  batchValid : ℕ
  warmup : ℚ
  loggingSteps : ℕ
  weight_decay : ℚ
  metric_for_best_model : String
  addToken : ℕ
  splitRatio : ℚ
  augmentation : Bool
  generateOption : ℕ
  warmup_steps : ℕ
  deriving DecidableEq, Repr

/-- The parser defaults of `main` (main_train.py lines 151-190). -/
def defaultArgs : Args where
  seed := 42
  loss := "focal"
  scheduler := "linear"
  epochs := 20
  lr := 5 / 100000
  batch := 32
  batchValid := 32
  warmup := 1 / 10
  loggingSteps := 100
  weight_decay := 1 / 100
  metric_for_best_model := "f1"
  addToken := 15
  splitRatio := 1 / 5
  augmentation := true
  generateOption := 0
  warmup_steps := 810

/-- The fields of the `TrainingArguments` record built in `train`
(main_train.py lines 107-127) that carry configuration values. -/
structure TrainingArgumentsRec where
  save_total_limit : ℕ
  save_steps : ℕ
  num_train_epochs : ℕ
  learning_rate : ℚ
  per_device_train_batch_size : ℕ
  per_device_eval_batch_size : ℕ
  warmup_steps : ℕ
  weight_decay : ℚ
  logging_steps : ℕ
  eval_steps : ℕ
  load_best_model_at_end : Bool
  metric_for_best_model : String
  deriving DecidableEq, Repr

/-- Embedding of the `TrainingArguments(...)` construction in `train`
(main_train.py lines 107-127); `datasetSize` is `len(train_dataset)`.
Line 116 reads `weight_decay=args.warmup`: the warmup-ratio flag, not the
`--weight_decay` flag, populates the weight-decay field. -/
def mkTrainingArguments (a : Args) (datasetSize : ℕ) : TrainingArgumentsRec where
  save_total_limit := 5
  save_steps := datasetSize / a.batch / 2
  num_train_epochs := a.epochs
  learning_rate := a.lr
  per_device_train_batch_size := a.batch
  per_device_eval_batch_size := a.batchValid
  warmup_steps := a.warmup_steps
  weight_decay := a.warmup
  logging_steps := a.loggingSteps
  eval_steps := datasetSize / a.batch / 2
  load_best_model_at_end := true
  metric_for_best_model := a.metric_for_best_model

/-- The early-stopping patience wired into the trainer's callback list
(main_train.py line 135): `EarlyStoppingCallback(early_stopping_patience=2)`. -/
def earlyStoppingPatience : ℕ := 2

/-! ## The `--augmentation` flag (argparse `type=bool`) -/

/-- Python's `bool(s)` on a string: `False` exactly for the empty string.
This is what `argparse` applies to the value of a flag declared with
`type=bool` (main_train.py line 185). -/
def pythonBoolOfString (s : String) : Bool := s ≠ ""

/-- The parsed value of `--augmentation`: the default `True` when the flag
is absent, otherwise Python `bool` of the supplied string
(main_train.py lines 185-186). -/
def parseAugmentation : Option String → Bool
  | none => true
  | some s => pythonBoolOfString s

/-- Embedding of the augmentation guard in `train` (main_train.py lines
84-85): `main_augmentation` — a function from a module outside the given
sources, taken here as the parameter `f` — is applied exactly when the
parsed flag is true. -/
def maybeAugment {α : Type} (augmentation : Bool) (tokenized : α) (f : α → α) : α :=
  if augmentation then f tokenized else tokenized

/-! ## Early stopping (wired at main_train.py lines 124-125 and 135)

The loop itself lives in the external training framework; `train` only
configures it with `EarlyStoppingCallback(early_stopping_patience=2)`,
`load_best_model_at_end=True` and `metric_for_best_model`. -/

/-- The state the early-stopping policy tracks across evaluation rounds:
the best validation metric seen so far and how many consecutive rounds
failed to improve on it. -/
structure ESState where
  bestMetric : Option ℚ
  patienceCounter : ℕ
  deriving DecidableEq, Repr

/-- Modelled from the spec: one evaluation round of the external
framework's early-stopping policy — an evaluation improves when its metric
strictly exceeds the best so far (or none exists yet), resetting the
counter and updating the retained best; otherwise the counter grows. -/
def esCheck (st : ESState) (metric : ℚ) : ESState :=
  match st.bestMetric with
  | none => { bestMetric := some metric, patienceCounter := 0 }
  | some b =>
      if b < metric then { bestMetric := some metric, patienceCounter := 0 }
      else { st with patienceCounter := st.patienceCounter + 1 }

/-- Modelled from the spec: the evaluation loop under the early-stopping
policy.  Consumes the metric of each evaluation round in order and stops as
soon as `patience` consecutive rounds fail to improve.  Returns the final
state, the number of rounds consumed, and whether it stopped early. -/
def esLoop (patience : ℕ) : ESState → List ℚ → ESState × ℕ × Bool
  | st, [] => (st, 0, false)
  | st, m :: rest =>
      let st1 := esCheck st m
      if patience ≤ st1.patienceCounter then (st1, 1, true)
      else
        let r := esLoop patience st1 rest
        (r.1, r.2.1 + 1, r.2.2)

/-- How a training run ends: normally, with the best checkpoint restored
(`load_best_model_at_end=True`), or with a raised failure. -/
inductive TrainOutcome where
  | success (restoredBest : Option ℚ)
  | failure (msg : String)
  deriving DecidableEq, Repr

/-- Modelled from the spec: the training loop seen as the sequence of its
evaluation metrics, starting from `st`.  Whether it runs to completion or
the early-stopping policy halts it, it terminates normally and restores the
checkpoint with the best retained metric; early stopping is a policy, not
an error path. -/
def trainLoopFrom (patience : ℕ) (st : ESState) (metrics : List ℚ) : TrainOutcome :=
  TrainOutcome.success (esLoop patience st metrics).1.bestMetric

/-! ## Dataset split (main_train.py line 89)

`train_test_split(RE_train_dataset, test_size=args.split_ratio,
random_state=args.seed)` delegates to the external sklearn splitter: draw a
seeded pseudo-random permutation of the `n` example indices, take the first
`ceil(r * n)` as the validation subset and the rest as the train subset. -/

/-- Modelled from the spec: one step of a deterministic pseudo-random
number generator (a linear congruential generator standing in for the
external library's seeded generator). -/
def lcgNext (x : ℕ) : ℕ := (1103515245 * x + 12345) % 2 ^ 31

/-- Modelled from the spec: a seeded shuffle — repeatedly pick the element
at the pseudo-random position of the remaining list.  The fuel argument is
the length of the list being shuffled. -/
def shuffleFuel : ℕ → ℕ → List ℕ → List ℕ
  | 0, _, _ => []
  | _ + 1, _, [] => []
  | fuel + 1, s, a :: rest =>
      (a :: rest).getD (s % (rest.length + 1)) a ::
        shuffleFuel fuel (lcgNext s)
          ((a :: rest).erase ((a :: rest).getD (s % (rest.length + 1)) a))

/-- Modelled from the spec: the seeded pseudo-random permutation of the `n`
example indices used by the split; deterministic in `(seed, n)`. -/
def shufflePerm (seed n : ℕ) : List ℕ := shuffleFuel n seed (List.range n)

/-- The validation subset size chosen by the external splitter for a float
ratio: the ceiling of `r * n`. -/
def nTestOfRatio (r : ℚ) (n : ℕ) : ℕ := (⌈r * n⌉).toNat

/-- Embedding of the split at main_train.py line 89, at the level of example
indices: `(train indices, validation indices)`.  The validation subset takes
the first `ceil(r * n)` positions of the seeded permutation, the train
subset all remaining positions. -/
def trainTestSplitIdx (seed : ℕ) (r : ℚ) (n : ℕ) : List ℕ × List ℕ :=
  let perm := shufflePerm seed n
  let t := nTestOfRatio r n
  (perm.drop t, perm.take t)

/-! ## Helper lemmas -/

/-- Picking by `getD` with an in-list default always lands in the list. -/
theorem getD_mem_of_mem {l : List ℕ} {a : ℕ} (k : ℕ) (ha : a ∈ l) :
    l.getD k a ∈ l := by
  rcases Nat.lt_or_ge k l.length with h | h
  · rw [List.getD_eq_getElem l a h]
    exact List.getElem_mem h
  · rw [List.getD_eq_default l a h]
    exact ha

/-- With fuel equal to the list's length, the seeded shuffle produces a
permutation of the list. -/
theorem shuffleFuel_perm :
    ∀ (fuel s : ℕ) (l : List ℕ), l.length = fuel → (shuffleFuel fuel s l).Perm l := by
  intro fuel
  induction fuel with
  | zero =>
      intro s l hl
      rw [List.length_eq_zero] at hl
      subst hl
      simp [shuffleFuel]
  | succ fuel ih =>
      intro s l hl
      cases l with
      | nil => simp at hl
      | cons a rest =>
          have hx : (a :: rest).getD (s % (rest.length + 1)) a ∈ a :: rest :=
            getD_mem_of_mem _ (List.mem_cons_self a rest)
          have hlen :
              ((a :: rest).erase ((a :: rest).getD (s % (rest.length + 1)) a)).length
                = fuel := by
            have h1 := List.length_erase_add_one hx
            simp only [List.length_cons] at hl h1
            omega
          rw [shuffleFuel]
          exact ((ih (lcgNext s) _ hlen).cons _).trans (List.perm_cons_erase hx).symm

/-- The seeded index permutation is a permutation of `range n`. -/
theorem shufflePerm_perm (seed n : ℕ) : (shufflePerm seed n).Perm (List.range n) :=
  shuffleFuel_perm n seed (List.range n) (List.length_range n)

/-- The seeded index permutation has length `n`. -/
theorem shufflePerm_length (seed n : ℕ) : (shufflePerm seed n).length = n := by
  rw [(shufflePerm_perm seed n).length_eq, List.length_range]

/-! ## Claim theorems -/

/-- Claim C1: the claim says the `CE` configuration computes the standard
multi-class cross-entropy and returns the scalar 0 on a perfectly confident
batch.  In the source the `CE` branch assigns the class
`nn.CrossEntropyLoss` without instantiating it, so the call at line 48
invokes the constructor with `weight := logits` and `size_average := labels`
and `compute_loss` hands back the resulting module object: for every choice
of the three imported loss functions, the result on the confident batch is
the constructor product and is not a numeric scalar — in particular not the
scalar 0 the claim requires. -/
theorem ce_branch_returns_module_not_scalar :
    ∀ lbLoss focalLoss f1Loss : List (List ℚ) → List ℤ → ℚ,
      computeLoss lbLoss focalLoss f1Loss ("CE") confidentLogits confidentLabels
          = ComputeLossResult.ceModuleCtor confidentLogits confidentLabels
        ∧ ∀ q : ℚ,
            computeLoss lbLoss focalLoss f1Loss ("CE") confidentLogits confidentLabels
              ≠ ComputeLossResult.scalar q := by
  intro lbLoss focalLoss f1Loss
  refine ⟨rfl, ?_⟩
  intro q h
  have h2 : ComputeLossResult.ceModuleCtor confidentLogits confidentLabels
      = ComputeLossResult.scalar q := h
  exact ComputeLossResult.noConfusion h2

/-- Claim C2: the claim says the `linear` configuration builds and stores a
step function ramping linearly to `base_lr` over the warmup steps and then
decaying to 0.  In the source the `get_scheduler(...)` call is indented
inside the `cosine` branch, so the `linear` branch builds nothing: with
`self.lr_scheduler` initialised to `None` by the base trainer,
`create_scheduler` under the default warmup configuration returns `None`
and no step function exists. -/
theorem linear_branch_builds_no_scheduler :
    createScheduler ⟨("linear"), none, 810, 0⟩ 8100 = none := by
  rfl

/-- Claim C3: the claim says a scheduler name outside the three known ones
is rejected with a `ConfigurationError` and never silently returns an
unchanged value.  The source's selector has no such check: for the name
`sgdr` every branch is skipped and `create_scheduler` returns
`self.lr_scheduler` exactly as it found it, whatever that value was. -/
theorem unknown_scheduler_falls_through :
    ∀ (prior : Option Schedule) (w : ℕ) (wr : ℚ) (n : ℕ),
      createScheduler ⟨("sgdr"), prior, w, wr⟩ n = prior := by
  intro prior w wr n
  simp [createScheduler]

/-- Claim C4: the claim says a loss name outside the four known ones fails
with a defined `UnknownLossError`/`ConfigurationError` surfaced at startup.
In the source no branch of `compute_loss` assigns `loss_fct` for such a
name, so Python raises `UnboundLocalError` at the call on line 48 — an
undefined error, raised only when the first batch's loss is computed, for
every choice of the imported loss functions and every input batch. -/
theorem unknown_loss_raises_unbound_local (name : String)
    (h1 : name ≠ "CE") (h2 : name ≠ "LB") (h3 : name ≠ "focal") (h4 : name ≠ "f1") :
    ∀ (lbLoss focalLoss f1Loss : List (List ℚ) → List ℤ → ℚ)
      (logits : List (List ℚ)) (labels : List ℤ),
      computeLoss lbLoss focalLoss f1Loss name logits labels
        = ComputeLossResult.raised (PyError.unboundLocalError ("loss_fct")) := by
  intro lbLoss focalLoss f1Loss logits labels
  simp [computeLoss, h1, h2, h3, h4]

/-- Witness for the unknown-loss theorem at the concrete name `unknown`. -/
theorem unknown_loss_raises_unbound_local_witness :
    (("unknown" : String) ≠ "CE" ∧ ("unknown" : String) ≠ "LB"
        ∧ ("unknown" : String) ≠ "focal" ∧ ("unknown" : String) ≠ "f1")
      ∧ computeLoss (fun _ _ => 0) (fun _ _ => 0) (fun _ _ => 0) ("unknown")
          [[(1 : ℚ)]] [(0 : ℤ)]
        = ComputeLossResult.raised (PyError.unboundLocalError ("loss_fct")) :=
  ⟨by decide,
    unknown_loss_raises_unbound_local ("unknown") (by decide) (by decide)
      (by decide) (by decide) (fun _ _ => 0) (fun _ _ => 0) (fun _ _ => 0)
      [[(1 : ℚ)]] [(0 : ℤ)]⟩

/-- Claim C5: the `steplr` configuration builds a
`StepLR(step_size=1080, gamma=0.5)` schedule with no warmup: its rate at
step 0 is already the base rate, after exactly 1080 steps it is half the
base rate, and after 2160 steps a quarter of it — for every prior scheduler
value, warmup configuration, total step count and base learning rate. -/
theorem steplr_halves_every_1080_steps :
    ∀ (prior : Option Schedule) (w : ℕ) (wr : ℚ) (n : ℕ) (baseLr : ℚ),
      createScheduler ⟨("steplr"), prior, w, wr⟩ n
          = some (Schedule.stepLR 1080 (1 / 2))
        ∧ stepLRRate 1080 (1 / 2) baseLr 0 = baseLr
        ∧ stepLRRate 1080 (1 / 2) baseLr 1080 = baseLr * (1 / 2)
        ∧ stepLRRate 1080 (1 / 2) baseLr 2160 = baseLr * (1 / 4) := by
  intro prior w wr n baseLr
  refine ⟨by simp [createScheduler], ?_, ?_, ?_⟩
  · simp [stepLRRate]
  · norm_num [stepLRRate]
  · norm_num [stepLRRate]

/-- Claim C6: the split takes the first `ceil(r * n)` positions of the
seeded permutation as the validation subset and the rest as the train
subset, so for `0 ≤ r ≤ 1` the two subset sizes sum to `n`, together they
carry every example index exactly once (their concatenation is a
permutation of `range n`, hence disjoint), the validation size is within 1
of `round(n * r)`, and a second run with the same seed and ratio produces
the identical split. -/
theorem split_sizes_partition_deterministic (seed : ℕ) (r : ℚ) (n : ℕ)
    (hr0 : 0 ≤ r) (hr1 : r ≤ 1) :
    (trainTestSplitIdx seed r n).1.length + (trainTestSplitIdx seed r n).2.length = n
      ∧ ((trainTestSplitIdx seed r n).2 ++ (trainTestSplitIdx seed r n).1).Perm
          (List.range n)
      ∧ |((trainTestSplitIdx seed r n).2.length : ℤ) - round (r * n)| ≤ 1
      ∧ ∀ seed2 r2, seed2 = seed → r2 = r →
          trainTestSplitIdx seed2 r2 n = trainTestSplitIdx seed r n := by
  have hp : (shufflePerm seed n).length = n := shufflePerm_length seed n
  have hx0 : (0 : ℚ) ≤ r * n := mul_nonneg hr0 (Nat.cast_nonneg n)
  have hceil0 : (0 : ℤ) ≤ ⌈r * (n : ℚ)⌉ := Int.ceil_nonneg hx0
  have htn : nTestOfRatio r n ≤ n := by
    rw [nTestOfRatio, Int.toNat_le, Int.ceil_le]
    calc r * n ≤ 1 * n := mul_le_mul_of_nonneg_right hr1 (Nat.cast_nonneg n)
    _ = (n : ℚ) := one_mul _
  refine ⟨?_, ?_, ?_, ?_⟩
  · simp only [trainTestSplitIdx, List.length_drop, List.length_take, hp]
    omega
  · simp only [trainTestSplitIdx]
    rw [List.take_append_drop]
    exact shufflePerm_perm seed n
  · have hlen : (trainTestSplitIdx seed r n).2.length = nTestOfRatio r n := by
      simp only [trainTestSplitIdx, List.length_take, hp]
      omega
    have hcast : ((nTestOfRatio r n : ℕ) : ℤ) = ⌈r * (n : ℚ)⌉ := by
      rw [nTestOfRatio, Int.toNat_of_nonneg hceil0]
    rw [hlen, hcast, round_eq]
    have hle1 : ⌊r * (n : ℚ) + 1 / 2⌋ ≤ ⌈r * (n : ℚ)⌉ := by
      have h := Int.floor_le_floor
        (show r * (n : ℚ) + 1 / 2 ≤ (⌈r * (n : ℚ)⌉ : ℚ) + 1 / 2 by
          linarith [Int.le_ceil (r * (n : ℚ))])
      rwa [Int.floor_int_add, show ⌊(1 : ℚ) / 2⌋ = 0 by norm_num,
        add_zero] at h
    have hle2 : ⌈r * (n : ℚ)⌉ ≤ ⌊r * (n : ℚ) + 1 / 2⌋ + 1 := by
      have h1 := Int.ceil_le_floor_add_one (r * (n : ℚ))
      have h2 : ⌊r * (n : ℚ)⌋ ≤ ⌊r * (n : ℚ) + 1 / 2⌋ :=
        Int.floor_le_floor (by linarith)
      omega
    rw [abs_le]
    omega
  · intro seed2 r2 hs hr
    rw [hs, hr]

/-- Witness for the split theorem at `seed = 42`, `r = 1/5`, `n = 5`. -/
theorem split_sizes_partition_deterministic_witness :
    ((0 : ℚ) ≤ 1 / 5 ∧ (1 : ℚ) / 5 ≤ 1)
      ∧ (trainTestSplitIdx 42 (1 / 5) 5).1.length
          + (trainTestSplitIdx 42 (1 / 5) 5).2.length = 5
      ∧ ((trainTestSplitIdx 42 (1 / 5) 5).2 ++ (trainTestSplitIdx 42 (1 / 5) 5).1).Perm
          (List.range 5)
      ∧ |((trainTestSplitIdx 42 (1 / 5) 5).2.length : ℤ) - round ((1 / 5 : ℚ) * 5)| ≤ 1
      ∧ ∀ seed2 r2, seed2 = 42 → r2 = (1 / 5 : ℚ) →
          trainTestSplitIdx seed2 r2 5 = trainTestSplitIdx 42 (1 / 5) 5 :=
  ⟨⟨by norm_num, by norm_num⟩,
    split_sizes_partition_deterministic 42 (1 / 5) 5 (by norm_num) (by norm_num)⟩

/-- Claim C7: the claim says scheduler construction, invoked once before
training, builds the step function from the total step count
`epochs * dataset size / batch size` and the configured warmup steps.  The
trainer construction at line 138 does compute and store that count — 62 for
20 epochs, 100 examples, batch 32 — but under the default configuration
(scheduler name `linear`, warmup 810) the single pre-training invocation of
`create_scheduler` builds no step function at all: it returns the untouched
`None`, so no schedule using that count (or any count) is ever stored. -/
theorem stored_step_count_unused_by_construction :
    trainerNumTrainingSteps defaultArgs.epochs 100 defaultArgs.batch = 62
      ∧ createScheduler
          ⟨defaultArgs.scheduler, none, defaultArgs.warmup_steps, 0⟩
          (trainerNumTrainingSteps defaultArgs.epochs 100 defaultArgs.batch)
        = none := by
  exact ⟨rfl, rfl⟩

/-- Claim C8: the claim says the recorded weight-decay strength equals the
`--weight_decay` flag.  Line 116 instead reads `weight_decay=args.warmup`,
so for every supplied `--weight_decay` value the record carries the warmup
ratio: under the parser defaults the record holds 0.1 while the flag's
default is 0.01, and the two disagree. -/
theorem weight_decay_records_warmup_flag :
    (∀ (wd : ℚ) (n : ℕ),
        (mkTrainingArguments { defaultArgs with weight_decay := wd } n).weight_decay
          = defaultArgs.warmup)
      ∧ (mkTrainingArguments defaultArgs 100).weight_decay = 1 / 10
      ∧ defaultArgs.weight_decay = 1 / 100
      ∧ (mkTrainingArguments defaultArgs 100).weight_decay ≠ defaultArgs.weight_decay := by
  refine ⟨fun wd n => rfl, rfl, rfl, ?_⟩
  norm_num [mkTrainingArguments, defaultArgs]

/-- Claim C9: with the wired `EarlyStoppingCallback` patience of 2 and
best-model restoration, from any state that retains a best metric `b` with
a fresh patience counter, two consecutive evaluation rounds that fail to
improve on `b` halt the loop right there — exactly those two rounds are
consumed — the run ends as a success rather than a failure signal, and the
restored checkpoint is the retained best `b`; moreover every run,
early-stopped or not, ends in a success outcome. -/
theorem early_stopping_halts_after_two_flat_rounds (b m1 m2 : ℚ)
    (h1 : m1 ≤ b) (h2 : m2 ≤ b) :
    (∀ rest : List ℚ,
        esLoop earlyStoppingPatience ⟨some b, 0⟩ (m1 :: m2 :: rest)
            = (⟨some b, 2⟩, 2, true)
          ∧ trainLoopFrom earlyStoppingPatience ⟨some b, 0⟩ (m1 :: m2 :: rest)
            = TrainOutcome.success (some b))
      ∧ ∀ (st : ESState) (metrics : List ℚ),
          ∃ best, trainLoopFrom earlyStoppingPatience st metrics
            = TrainOutcome.success best := by
  have hn1 : ¬b < m1 := not_lt.mpr h1
  have hn2 : ¬b < m2 := not_lt.mpr h2
  constructor
  · intro rest
    have hstep : esLoop earlyStoppingPatience ⟨some b, 0⟩ (m1 :: m2 :: rest)
        = (⟨some b, 2⟩, 2, true) := by
      simp [esLoop, esCheck, hn1, hn2, earlyStoppingPatience]
    exact ⟨hstep, by rw [trainLoopFrom, hstep]⟩
  · intro st metrics
    exact ⟨(esLoop earlyStoppingPatience st metrics).1.bestMetric, rfl⟩

/-- Witness for the early-stopping theorem: best 1, two rounds at 0. -/
theorem early_stopping_halts_after_two_flat_rounds_witness :
    ((0 : ℚ) ≤ 1 ∧ (0 : ℚ) ≤ 1)
      ∧ esLoop earlyStoppingPatience ⟨some 1, 0⟩ [0, 0] = (⟨some 1, 2⟩, 2, true) :=
  ⟨⟨by norm_num, by norm_num⟩,
    ((early_stopping_halts_after_two_flat_rounds 1 0 0 (by norm_num)
      (by norm_num)).1 []).1⟩

/-- Claim C10 counterexample: the claim says every explicitly supplied
`--augmentation` value parses as True and no CLI invocation of that form
disables augmentation; supplying the empty string refutes it — Python bool
of the empty string is False, and with the flag False the augmentation
function is not applied. -/
theorem empty_string_disables_augmentation :
    parseAugmentation (some ("")) = false
      ∧ maybeAugment (parseAugmentation (some (""))) [(0 : ℕ), 1] (fun l => l ++ l)
        = [0, 1] := by
  exact ⟨rfl, rfl⟩

/-- Claim C10 (amended): with argparse `type=bool` and default `True`,
every non-empty supplied value — the string `False` included — parses as
True and the default enables augmentation, so augmentation runs in those
cases; the empty string is the one supplied value that parses as False and
skips it. -/
theorem augmentation_flag_truthiness (s : String) (hs : s ≠ "") :
    parseAugmentation (some s) = true
      ∧ parseAugmentation none = true
      ∧ parseAugmentation (some ("False")) = true
      ∧ parseAugmentation (some ("")) = false
      ∧ ∀ (ds : List ℕ) (f : List ℕ → List ℕ),
          maybeAugment true ds f = f ds ∧ maybeAugment false ds f = ds := by
  refine ⟨?_, rfl, rfl, rfl, fun ds f => ⟨rfl, rfl⟩⟩
  simp [parseAugmentation, pythonBoolOfString, hs]

/-- Witness for the amended augmentation theorem at the string `False`. -/
theorem augmentation_flag_truthiness_witness :
    ("False" : String) ≠ "" ∧ parseAugmentation (some ("False")) = true :=
  ⟨by decide, (augmentation_flag_truthiness ("False") (by decide)).1⟩

end MainTrain
